import Mathlib

/-!
Shallow embedding of the CrossWars backend battle/invite core
(`app/routes/battles.py`, `app/routes/invites.py`, `app/auth.py`).

Timestamps are ISO-8601 strings in the source (`datetime.now().isoformat()`),
compared lexicographically by Python's `>` on `str`; we keep them as `String`
and compare with `String` order, which agrees with the source.

Each HTTP handler is embedded as a pure function from the store state and the
request data to the pair of the post-state and the response
(`Except HError resp`), mirroring the source control flow statement by
statement, including its try/except structure: an exception raised after a
store write leaves that write in place (neither the real Supabase client nor
the source performs any rollback besides the single explicit compensating
delete in `create_invite`).
-/

/-- ISO-8601 timestamp strings, as produced by `datetime.now().isoformat()`. -/
abbrev Time := String

/-- Battle lifecycle status strings used by `battles.py`. -/
inductive BStatus
  | WAITING
  | READY
  | IN_PROGRESS
  | COMPLETED
deriving DecidableEq, Repr

/-- Invite status strings used by `invites.py`. -/
inductive IStatus
  | ACTIVE
  | ACCEPTED
  | EXPIRED
deriving DecidableEq, Repr

/-- A row of the `battles` table (production schema of section 3 of the spec:
nullable columns are `Option`, boolean columns default to `false`). -/
structure Battle where
  id : String
  player1_id : String
  player2_id : Option String := none
  player2_is_guest : Bool := false
  status : BStatus
  player1_ready : Bool := false
  player2_ready : Bool := false
  started_at : Option Time := none
  completed_at : Option Time := none
  winner_id : Option String := none
  player1_completed_at : Option Time := none
  player2_completed_at : Option Time := none
  created_at : Option Time := none
  puzzle_date : Option String := none
deriving DecidableEq, Repr

/-- A row of the `invites` table. -/
structure Invite where
  invite_token : String
  inviter_id : String
  battle_id : String
  status : IStatus
  expires_at : Time
  accepted_at : Option Time := none
  invitee_id : Option String := none
  created_at : Option Time := none
deriving DecidableEq, Repr

/-- The two tables the core reads and writes. -/
structure Store where
  battles : List Battle
  invites : List Invite
deriving DecidableEq, Repr

/-- The dict returned by `get_current_user` / `get_current_user_optional`. -/
structure User where
  user_id : String
  username : Option String := none
  email : Option String := none
deriving DecidableEq, Repr

/-- An `HTTPException(status_code=..., detail=...)`. -/
structure HError where
  status : Nat
  detail : String
deriving DecidableEq, Repr

/-- Response of `POST /battles/{id}/ready`. -/
structure MarkReadyResp where
  message : String
deriving DecidableEq, Repr

/-- Response of `POST /battles/{id}/start`. -/
structure StartResp where
  message : String
  started_at : Option Time
  already_started : Bool
deriving DecidableEq, Repr

/-- Response of `POST /battles/{id}/complete`.  The fresh-completion branch of
the source would also carry `winner` and `time`; the idempotent branch carries
neither, hence the defaults. -/
structure CompleteResp where
  message : String
  completed_at : Option Time
  winner_id : Option String
  is_tie : Bool
  already_completed : Bool
  winner : Option String := none
  time : Option Time := none
deriving DecidableEq, Repr

/-- Response of `POST /invites/accept/{token}`. -/
structure AcceptResp where
  battle_id : String
  is_guest : Bool
deriving DecidableEq, Repr

/-- Response of `POST /invites/create`. -/
structure CreateResp where
  invite_token : String
  battle_id : String
deriving DecidableEq, Repr

/-- Python `str(bool)` as used in the f-string of the not-ready detail. -/
def pyBoolStr : Bool → String
  | true => "True"
  | false => "False"

/-- Rendering of a battle status into the string stored in the row, used by
the f-string error details of `start` and `end`. -/
def bstatusStr : BStatus → String
  | .WAITING => "WAITING"
  | .READY => "READY"
  | .IN_PROGRESS => "IN_PROGRESS"
  | .COMPLETED => "COMPLETED"

/-- `SELECT * FROM battles WHERE id = battle_id` (`.eq("id", battle_id)`). -/
def selectBattles (s : Store) (battle_id : String) : List Battle :=
  s.battles.filter (fun b => decide (b.id = battle_id))

/-- `SELECT * FROM invites WHERE invite_token = t` (`.eq("invite_token", t)`). -/
def selectInvites (s : Store) (t : String) : List Invite :=
  s.invites.filter (fun i => decide (i.invite_token = t))

/-- `GET /battles/{battle_id}` (`get_battle` in `battles.py`).  The
participant check is commented out in the source, so `current_user` is
ignored entirely. -/
def get_battle (s : Store) (battle_id : String) (current_user : Option User) :
    Store × Except HError Battle :=
  match selectBattles s battle_id with
  | [] => (s, .error ⟨404, "Battle not found."⟩)
  | battle :: _ =>
    let _ := current_user
    (s, .ok battle)

/-- The row update of `mark_ready`: `UPDATE battles SET {player}_ready = true
WHERE id = battle_id`, where `player` is the string "player1" or "player2". -/
def readyRow (player : String) (b : Battle) : Battle :=
  if player = "player1" then { b with player1_ready := true }
  else { b with player2_ready := true }

/-- `POST /battles/{battle_id}/ready` (`mark_ready` in `battles.py`). -/
def mark_ready (s : Store) (battle_id : String) (current_user : Option User) :
    Store × Except HError MarkReadyResp :=
  match selectBattles s battle_id with
  | [] => (s, .error ⟨404, "Battle not found."⟩)
  | battle :: _ =>
    if ¬ (battle.status = .READY ∨ battle.status = .WAITING) then
      (s, .error ⟨400, "Battle not in a joinable state."⟩)
    else
      let player? : Except HError String :=
        match current_user with
        | some u =>
          if u.user_id = battle.player1_id then .ok "player1"
          else if battle.player2_id = some u.user_id then .ok "player2"
          else .error ⟨403, "User not part of this battle."⟩
        | none =>
          if battle.player2_is_guest = false then
            .error ⟨403, "Player 2 is not a guest and guest cannot join this battle."⟩
          else .ok "player2"
      match player? with
      | .error e => (s, .error e)
      | .ok player =>
        let s' : Store :=
          { s with battles := s.battles.map (fun b =>
              if b.id = battle_id then readyRow player b else b) }
        (s', .ok ⟨player ++ " marked as ready."⟩)

/-- Detail string of the not-ready failure in `start` (note the missing space
after the period, exactly as in the source f-string). -/
def notReadyDetail (p1 p2 : Bool) : String :=
  "Both players must be ready before starting." ++
    "player1_ready: " ++ pyBoolStr p1 ++ ", player2_ready: " ++ pyBoolStr p2

/-- The row update of `start`: `UPDATE battles SET status = IN_PROGRESS,
started_at = now WHERE id = battle_id`. -/
def startRow (now : Time) (b : Battle) : Battle :=
  { b with status := .IN_PROGRESS, started_at := some now }

/-- `POST /battles/{battle_id}/start` (`start` in `battles.py`). -/
def start (s : Store) (battle_id : String) (current_user : Option User)
    (now : Time) : Store × Except HError StartResp :=
  match selectBattles s battle_id with
  | [] => (s, .error ⟨404, "Battle not found."⟩)
  | battle :: _ =>
    let authFail : Option HError :=
      match current_user with
      | some u =>
        if ¬ (battle.player1_id = u.user_id ∨ battle.player2_id = some u.user_id) then
          some ⟨403, "You are not part of this battle."⟩
        else none
      | none =>
        if battle.player2_is_guest = false then
          some ⟨403, "Guest access denied for this battle."⟩
        else none
    match authFail with
    | some e => (s, .error e)
    | none =>
      if ¬ (battle.player1_ready = true ∧ battle.player2_ready = true) then
        (s, .error ⟨400, notReadyDetail battle.player1_ready battle.player2_ready⟩)
      else if battle.status = .IN_PROGRESS then
        (s, .ok ⟨"Battle already in progress.", battle.started_at, true⟩)
      else if ¬ (battle.status = .READY) then
        (s, .error ⟨400, "Battle not in a startable state. Current status: " ++
          bstatusStr battle.status⟩)
      else
        let s' : Store :=
          { s with battles := s.battles.map (fun b =>
              if b.id = battle_id then startRow now b else b) }
        (s', .ok ⟨"Battle started", some now, false⟩)

/-- `current_user["user_id"] if current_user else None`. -/
def callerId : Option User → Option String
  | some u => some u.user_id
  | none => none

/-- `winner = "player1" if winner_id == battle["player1_id"] else "player2"`
in `end` (a Python `==` between an optional id and the player1 id). -/
def winnerSide (b : Battle) (u : Option User) : String :=
  if callerId u = some b.player1_id then "player1" else "player2"

/-- Python `completed_at - battle["started_at"]` in the response dict of `end`:
both operands are `str` values (isoformat timestamps), and `str` has no `-`
operator, so the expression unconditionally raises `TypeError`; modelled as
`none`.  (When `started_at` is missing or null the subscript or the
subtraction raises likewise.) -/
def pyStrSub (_a : Time) (_b : Option Time) : Option Time := none

/-- The row update of `end`: `UPDATE battles SET status = COMPLETED,
{winner}_completed_at = now, completed_at = now, winner_id = wid
WHERE id = battle_id`, where `winner` is "player1" or "player2". -/
def completeRow (winner : String) (wid : Option String) (now : Time)
    (b : Battle) : Battle :=
  if winner = "player1" then
    { b with status := .COMPLETED, player1_completed_at := some now,
             completed_at := some now, winner_id := wid }
  else
    { b with status := .COMPLETED, player2_completed_at := some now,
             completed_at := some now, winner_id := wid }

/-- The generic `except Exception` handler of `end`; the source appends
`str(e)` (here the TypeError text) to this detail. -/
def completeFail : HError := ⟨500, "Failed to mark battle as complete"⟩

/-- `POST /battles/{battle_id}/complete` (`end` in `battles.py`).  The store
update runs before the response dict is built; building the dict evaluates
`completed_at - battle["started_at"]` which raises `TypeError`, caught by the
generic handler — so the mutation persists while a 500 is returned. -/
def endBattle (s : Store) (battle_id : String) (current_user : Option User)
    (now : Time) : Store × Except HError CompleteResp :=
  match selectBattles s battle_id with
  | [] => (s, .error ⟨404, "Battle not found."⟩)
  | battle :: _ =>
    let authFail : Option HError :=
      match current_user with
      | some u =>
        if ¬ (battle.player1_id = u.user_id ∨ battle.player2_id = some u.user_id) then
          some ⟨403, "You are not part of this battle."⟩
        else none
      | none =>
        if battle.player2_is_guest = false then
          some ⟨403, "Guest access denied for this battle."⟩
        else none
    match authFail with
    | some e => (s, .error e)
    | none =>
      if battle.status = .COMPLETED then
        (s, .ok ⟨"Battle already complete.", battle.completed_at,
                 battle.winner_id, decide (battle.winner_id = none), true, none, none⟩)
      else if ¬ (battle.status = .IN_PROGRESS) then
        (s, .error ⟨400, "Battle not in progress. Current status: " ++
          bstatusStr battle.status⟩)
      else
        let completed_at := now
        let winner_id := callerId current_user
        let winner : String := winnerSide battle current_user
        let s' : Store :=
          { s with battles := s.battles.map (fun b =>
              if b.id = battle_id then completeRow winner winner_id now b else b) }
        match pyStrSub completed_at battle.started_at with
        | none => (s', .error completeFail)
        | some t =>
          (s', .ok ⟨"Battle marked as complete.", some completed_at, winner_id,
                    false, false, some winner, some t⟩)

/-- Lexicographic order on character lists by code point, the order Python
uses for `str` comparison. -/
def charsLt : List Char → List Char → Bool
  | _, [] => false
  | [], _ :: _ => true
  | a :: as, b :: bs =>
    if a.val < b.val then true
    else if b.val < a.val then false
    else charsLt as bs

/-- Python `now > expires_at` on two isoformat `str` values: lexicographic
comparison by code point (which coincides with chronological order for
equal-format ISO strings). -/
def timeLt (a b : Time) : Bool := charsLt a.data b.data

/-- The lazy expiry write of `accept_invite`: `UPDATE invites SET status =
EXPIRED WHERE invite_token = t` — note: conditioned on the token only, not on
the current status. -/
def expireRow (t : String) (i : Invite) : Invite :=
  if i.invite_token = t then { i with status := .EXPIRED } else i

/-- The compare-and-swap write of `accept_invite`: `UPDATE invites SET
status = ACCEPTED, accepted_at = now [, invitee_id = uid] WHERE
invite_token = t AND status = ACTIVE`.  `invitee_id` is included in the
update dict only for a registered caller. -/
def casRow (t : String) (current_user : Option User) (now : Time)
    (i : Invite) : Invite :=
  if i.invite_token = t ∧ i.status = .ACTIVE then
    { i with status := .ACCEPTED, accepted_at := some now,
             invitee_id := match current_user with
                           | some u => some u.user_id
                           | none => i.invitee_id }
  else i

/-- The battle write of `accept_invite` after a successful CAS: `UPDATE
battles SET status = READY, player2_id = ..., player2_is_guest = ...
WHERE id = battle_id`. -/
def joinRow (battle_id : String) (current_user : Option User)
    (b : Battle) : Battle :=
  if b.id = battle_id then
    { b with status := .READY,
             player2_id := match current_user with
                           | some u => some u.user_id
                           | none => none,
             player2_is_guest := current_user.isNone }
  else b

/-- `POST /invites/accept/{invite_token}` (`accept_invite` in `invites.py`).

`lazyWriteRaises` injects the one store fault the spec discusses: when the
lazy expiry `update(...).execute()` raises, Python control skips the
`raise HTTPException(400, "Invite has expired.")` line and lands in the
generic `except Exception` handler, which returns 500
"Failed to accept Invite"; the faulting write itself stores nothing.
With `lazyWriteRaises = false` every write completes normally. -/
def accept_invite (s : Store) (invite_token : String)
    (current_user : Option User) (now : Time) (lazyWriteRaises : Bool) :
    Store × Except HError AcceptResp :=
  match selectInvites s invite_token with
  | [] => (s, .error ⟨404, "Could not find invite."⟩)
  | inv :: _ =>
    let battle_id := inv.battle_id
    if inv.status = .EXPIRED ∨ timeLt inv.expires_at now = true then
      if lazyWriteRaises then
        (s, .error ⟨500, "Failed to accept Invite"⟩)
      else
        let s' : Store := { s with invites := s.invites.map (expireRow invite_token) }
        (s', .error ⟨400, "Invite has expired."⟩)
    else if (match current_user with
             | some u => decide (u.user_id = inv.inviter_id)
             | none => false) then
      (s, .error ⟨400, "Cannot accept your own invite."⟩)
    else
      let matched : List Invite :=
        s.invites.filter (fun i =>
          decide (i.invite_token = invite_token) && decide (i.status = .ACTIVE))
      let s1 : Store :=
        { s with invites := s.invites.map (casRow invite_token current_user now) }
      if matched.isEmpty then
        (s1, .error ⟨409, "Invite has already been accepted by another user."⟩)
      else
        let s2 : Store :=
          { s1 with battles := s1.battles.map (joinRow battle_id current_user) }
        let matchedB : List Battle := selectBattles s1 battle_id
        (s2,
         if matchedB.isEmpty then
           .error ⟨500, "Failed to update battle with player 2."⟩
         else .ok ⟨battle_id, current_user.isNone⟩)

/-- Outcome of one `insert(...).execute()` call against the store: the write
lands and returns the inserted row (`ok`), the write returns a response with
empty `data` (`noData`), or the client raises an exception (`exn`). -/
inductive WriteOutcome
  | ok
  | noData
  | exn
deriving DecidableEq, Repr

/-- The battle row inserted by `create_invite`: status WAITING, player1 the
inviter, second-party fields empty. -/
def newBattleRow (u : User) (new_battle_id : String) (now : Time)
    (puzzle_date : String) : Battle :=
  { id := new_battle_id, player1_id := u.user_id, status := .WAITING,
    puzzle_date := some puzzle_date, created_at := some now }

/-- The invite row inserted by `create_invite`: status ACTIVE, bound to the
battle just created. -/
def newInviteRow (u : User) (invite_token : String) (new_battle_id : String)
    (now expires_at : Time) : Invite :=
  { invite_token := invite_token, inviter_id := u.user_id,
    battle_id := new_battle_id, status := .ACTIVE, expires_at := expires_at,
    created_at := some now }

/-- `POST /invites/create` (`create_invite` in `invites.py`).  Token, battle
id, current time, end-of-day expiry and puzzle date are produced by
`secrets.token_urlsafe` / `uuid` / `datetime.now()` in the source and enter
here as parameters.  `battleInsert` / `inviteInsert` describe how the two
insert calls behave; an exception anywhere in the `try` block lands in the
generic `except Exception` handler (500 "Failed to create Invite") without
any compensation, while the empty-`data` invite insert triggers the explicit
compensating `delete().eq("id", battle_id)`. -/
def create_invite (s : Store) (current_user : User) (invite_token : String)
    (now expires_at : Time) (new_battle_id : String) (puzzle_date : String)
    (battleInsert inviteInsert : WriteOutcome) :
    Store × Except HError CreateResp :=
  match battleInsert with
  | .exn => (s, .error ⟨500, "Failed to create Invite"⟩)
  | .noData => (s, .error ⟨500, "Failed to create battle."⟩)
  | .ok =>
    let battle : Battle := newBattleRow current_user new_battle_id now puzzle_date
    let s1 : Store := { s with battles := s.battles ++ [battle] }
    match inviteInsert with
    | .exn => (s1, .error ⟨500, "Failed to create Invite"⟩)
    | .noData =>
      let s2 : Store :=
        { s1 with battles := s1.battles.filter (fun b => !(decide (b.id = new_battle_id))) }
      (s2, .error ⟨500, "Failed to create invite."⟩)
    | .ok =>
      let invite : Invite :=
        newInviteRow current_user invite_token new_battle_id now expires_at
      let s2 : Store := { s1 with invites := s1.invites ++ [invite] }
      (s2, .ok ⟨invite_token, new_battle_id⟩)

/-- How the identity provider (`supabase.auth.get_user(token)`) behaves on a
given token: a valid user, a response without a user, or a raised exception
carrying a message. -/
inductive ProviderResult
  | valid (u : User)
  | noUser
  | exn (msg : String)
deriving DecidableEq, Repr

/-- `authorization.replace("Bearer ", "").strip()` from `auth.py`. -/
def stripBearer (authorization : String) : String :=
  (authorization.replace "Bearer " "").trim

/-- `get_current_user` in `auth.py`, for a provider behaviour `p`.

Both failure branches inside the `try` block are caught by the bare
`except Exception as e` (FastAPI `HTTPException` is an `Exception`
subclass), which re-raises with detail `"Authentication failed: " + str(e)`.
For the inner `HTTPException(401, "Invalid or expired token")`,
`str(e)` is `"401: Invalid or expired token"`; for a provider exception it
is the provider message. -/
def get_current_user (p : String → ProviderResult)
    (authorization : Option String) : Except HError User :=
  match authorization with
  | none => .error ⟨401, "Authorization header missing"⟩
  | some auth =>
    match p (stripBearer auth) with
    | .valid u => .ok u
    | .noUser => .error ⟨401, "Authentication failed: 401: Invalid or expired token"⟩
    | .exn msg => .error ⟨401, "Authentication failed: " ++ msg⟩

/-- `get_current_user_optional` in `auth.py`: every failure collapses to
`None` (guest). -/
def get_current_user_optional (p : String → ProviderResult)
    (authorization : Option String) : Option User :=
  match authorization with
  | none => none
  | some auth =>
    match p (stripBearer auth) with
    | .valid u => some u
    | .noUser => none
    | .exn _ => none

/-- One `AcceptInvite` request in a sequence: its caller, its `now`, and
whether its lazy expiry write would raise. -/
structure AcceptCall where
  user : Option User
  now : Time
  lazyRaise : Bool := false
deriving Repr

/-- Run a sequence of `AcceptInvite` calls against one token, threading the
store; returns the final store and the list of responses in call order. -/
def runAccepts (s : Store) (t : String) :
    List AcceptCall → Store × List (Except HError AcceptResp)
  | [] => (s, [])
  | c :: cs =>
    let step := accept_invite s t c.user c.now c.lazyRaise
    let rest := runAccepts step.1 t cs
    (rest.1, step.2 :: rest.2)

/-- Whether a response is a success. -/
def isOkResp (r : Except HError AcceptResp) : Bool :=
  match r with
  | .ok _ => true
  | .error _ => false

/-- Number of successful responses in a list. -/
def countOk (rs : List (Except HError AcceptResp)) : Nat :=
  rs.countP isOkResp

/-- The shared authorization convention of `mark_ready` / `start` / `end`:
a registered caller must be player1 or player2; a guest caller stands for
player2 and is admitted exactly when `player2_is_guest` is set. -/
def isParticipant (b : Battle) (u : Option User) : Prop :=
  match u with
  | some x => b.player1_id = x.user_id ∨ b.player2_id = some x.user_id
  | none => b.player2_is_guest = true

/-- The negation of `isParticipant`, spelled out: a registered caller who is
neither player, or a guest caller on a battle whose player2 is not a guest. -/
def nonParticipant (b : Battle) (u : Option User) : Prop :=
  match u with
  | some x => b.player1_id ≠ x.user_id ∧ b.player2_id ≠ some x.user_id
  | none => b.player2_is_guest = false

/-! Concrete fixtures used by witnesses and counterexamples. -/

/-- Registered user A (inviter / player1 in the fixtures). -/
def uA : User := { user_id := "user-A" }

/-- Registered user B (player2 in the fixtures). -/
def uB : User := { user_id := "user-B" }

/-- Registered user X, a party to none of the fixture battles. -/
def uX : User := { user_id := "user-X" }

/-- A battle in progress between A and B, both ready. -/
def bInProg : Battle :=
  { id := "b1", player1_id := "user-A", player2_id := some "user-B",
    status := .IN_PROGRESS, player1_ready := true, player2_ready := true,
    started_at := some "2024-06-01T10:00:00" }

/-- A store holding only `bInProg`. -/
def sInProg : Store := { battles := [bInProg], invites := [] }

/-- A completed battle between A and B, won by B. -/
def bCompleted : Battle :=
  { id := "b2", player1_id := "user-A", player2_id := some "user-B",
    status := .COMPLETED, player1_ready := true, player2_ready := true,
    started_at := some "2024-06-01T10:00:00",
    completed_at := some "2024-06-01T10:05:00", winner_id := some "user-B",
    player2_completed_at := some "2024-06-01T10:05:00" }

/-- A store holding only `bCompleted`. -/
def sCompleted : Store := { battles := [bCompleted], invites := [] }

/-- The tests' mock identity provider (`MockAuth.get_user`): a known token
yields its user, any other token raises `Exception("Invalid token")`. -/
def mockAuthProvider (valid : List (String × User)) : String → ProviderResult :=
  fun t =>
    match valid.find? (fun kv => kv.1 == t) with
    | some kv => .valid kv.2
    | none => .exn "Invalid token"

/-- C10: `GetBattle` returns the full battle record to any caller whatsoever —
its result never depends on the caller, a present battle is returned whole to
registered participants, registered non-participants and guests alike, and
its only failure is 404 NotFound when the battle id is absent. -/
theorem spec_C10_get_battle_open_to_all (s : Store) (battle_id : String)
    (u u' : Option User) :
    get_battle s battle_id u = get_battle s battle_id u'
    ∧ (∀ b l, selectBattles s battle_id = b :: l →
        get_battle s battle_id u = (s, .ok b))
    ∧ (selectBattles s battle_id = [] →
        get_battle s battle_id u = (s, .error ⟨404, "Battle not found."⟩))
    ∧ (∀ e, (get_battle s battle_id u).2 = .error e →
        e = ⟨404, "Battle not found."⟩) := by
  refine ⟨?_, ?_, ?_, ?_⟩
  · cases h : selectBattles s battle_id <;> simp [get_battle, h]
  · intro b l h; simp [get_battle, h]
  · intro h; simp [get_battle, h]
  · intro e he
    cases h : selectBattles s battle_id <;> simp [get_battle, h] at he
    simp [he]

/-- Witness for C10: a guest fetching the in-progress fixture battle gets the
full record. -/
theorem spec_C10_witness :
    get_battle sInProg "b1" none = (sInProg, .ok bInProg) :=
  (spec_C10_get_battle_open_to_all sInProg "b1" none (some uX)).2.1 bInProg [] rfl

/-- C8: Start and Complete are idempotent on their terminal states.  `Start`
on an IN_PROGRESS battle (reached through the machine, so both ready flags
are set) returns success with `already_started = true` and the stored
`started_at` and leaves the store untouched — hence every repeated call
returns the same; `Complete` on a COMPLETED battle returns success with
`already_completed = true` and the stored `winner_id` / `completed_at`,
likewise without mutation. -/
theorem spec_C8_terminal_idempotence :
    (∀ (s : Store) (battle_id : String) (u : Option User) (now : Time)
        (b : Battle) (l : List Battle),
      selectBattles s battle_id = b :: l → isParticipant b u →
      b.player1_ready = true → b.player2_ready = true →
      b.status = .IN_PROGRESS →
      start s battle_id u now =
        (s, .ok ⟨"Battle already in progress.", b.started_at, true⟩))
    ∧ (∀ (s : Store) (battle_id : String) (u : Option User) (now : Time)
        (b : Battle) (l : List Battle),
      selectBattles s battle_id = b :: l → isParticipant b u →
      b.status = .COMPLETED →
      endBattle s battle_id u now =
        (s, .ok ⟨"Battle already complete.", b.completed_at, b.winner_id,
                 decide (b.winner_id = none), true, none, none⟩)) := by
  constructor
  · intro s battle_id u now b l hf hp h1 h2 hst
    cases u with
    | some x =>
      rcases hp with hp | hp <;> simp [start, hf, hp, h1, h2, hst]
    | none => simp [start, hf, isParticipant] at hp ⊢; simp [hp, h1, h2, hst]
  · intro s battle_id u now b l hf hp hst
    cases u with
    | some x =>
      rcases hp with hp | hp <;> simp [endBattle, hf, hp, hst]
    | none => simp [endBattle, hf, isParticipant] at hp ⊢; simp [hp, hst]

/-- Witness for C8: repeating `Start` on the in-progress fixture and
`Complete` on the completed fixture both return idempotent successes. -/
theorem spec_C8_witness :
    start sInProg "b1" (some uA) "2024-06-01T10:09:00" =
      (sInProg, .ok ⟨"Battle already in progress.",
                     some "2024-06-01T10:00:00", true⟩)
    ∧ endBattle sCompleted "b2" (some uA) "2024-06-01T10:09:00" =
      (sCompleted, .ok ⟨"Battle already complete.",
                        some "2024-06-01T10:05:00", some "user-B",
                        false, true, none, none⟩) :=
  ⟨spec_C8_terminal_idempotence.1 sInProg "b1" (some uA) "2024-06-01T10:09:00"
      bInProg [] rfl (Or.inl rfl) rfl rfl rfl,
   spec_C8_terminal_idempotence.2 sCompleted "b2" (some uA) "2024-06-01T10:09:00"
      bCompleted [] rfl (Or.inl rfl) rfl⟩

/-- C1 (code bug): on an IN_PROGRESS battle a participant's `Complete` call
does perform the winning update — status COMPLETED, `completed_at = now`,
`winner_id` the caller's id (null for a guest), the caller's per-side
completed-at — but then the handler builds the response dict, whose
`"time": completed_at - battle["started_at"]` entry subtracts two `str`
values, raising `TypeError`; the generic handler turns this into a 500
error instead of the success response with `already_completed = false`
that the claim (and the repository's own tests) demand. -/
theorem spec_C1_complete_mutates_then_500 (s : Store) (battle_id : String)
    (u : Option User) (now : Time) (b : Battle) (l : List Battle)
    (hf : selectBattles s battle_id = b :: l) (hp : isParticipant b u)
    (hst : b.status = .IN_PROGRESS) :
    endBattle s battle_id u now =
      ({ s with battles := s.battles.map (fun bb =>
           if bb.id = battle_id then
             completeRow (winnerSide b u) (callerId u) now bb
           else bb) },
       .error completeFail) := by
  cases u with
  | some x =>
    rcases hp with hp | hp <;>
      simp [endBattle, hf, hp, hst, pyStrSub]
  | none =>
    simp [endBattle, hf, isParticipant] at hp ⊢
    simp [hp, hst, pyStrSub]

/-- Witness for C1: the guest-winner scenario of the spec — a guest completes
an in-progress guest battle: the battle row is updated (COMPLETED, null
winner, player2_completed_at set) yet the caller receives the 500 error. -/
theorem spec_C1_witness :
    endBattle
      { battles := [{ id := "g1", player1_id := "user-A",
                      player2_is_guest := true, status := .IN_PROGRESS,
                      player1_ready := true, player2_ready := true,
                      started_at := some "2024-06-01T10:00:00" }],
        invites := [] }
      "g1" none "2024-06-01T10:04:00" =
      ({ battles := [{ id := "g1", player1_id := "user-A",
                       player2_is_guest := true, status := .COMPLETED,
                       player1_ready := true, player2_ready := true,
                       started_at := some "2024-06-01T10:00:00",
                       completed_at := some "2024-06-01T10:04:00",
                       player2_completed_at := some "2024-06-01T10:04:00" }],
         invites := [] },
       .error completeFail) := by
  have h := spec_C1_complete_mutates_then_500
    { battles := [{ id := "g1", player1_id := "user-A",
                    player2_is_guest := true, status := .IN_PROGRESS,
                    player1_ready := true, player2_ready := true,
                    started_at := some "2024-06-01T10:00:00" }],
      invites := [] }
    "g1" none "2024-06-01T10:04:00"
    { id := "g1", player1_id := "user-A", player2_is_guest := true,
      status := .IN_PROGRESS, player1_ready := true, player2_ready := true,
      started_at := some "2024-06-01T10:00:00" }
    [] rfl rfl rfl
  simpa [winnerSide, callerId, completeRow] using h

/-- C9 (code bug): when the identity provider rejects a required-auth bearer
credential, the resolver does return status 401, but never the detail
`Invalid or expired token` by itself: the inner
`HTTPException(401, "Invalid or expired token")` is itself an `Exception`,
so the bare `except Exception as e` catches it and re-raises with detail
`"Authentication failed: " + str(e)`; and when the provider raises (as the
tests' mock provider does on any unknown token), the provider's own error
text is embedded in the detail — contradicting both the claim and
`test_auth.py`, which expects `Invalid or expired token` in the detail. -/
theorem spec_C9_auth_detail_leaks (p : String → ProviderResult) (a : String) :
    (∀ m, p (stripBearer a) = .exn m →
      get_current_user p (some a) =
        .error ⟨401, "Authentication failed: " ++ m⟩)
    ∧ (p (stripBearer a) = .noUser →
      get_current_user p (some a) =
        .error ⟨401, "Authentication failed: 401: Invalid or expired token"⟩)
    ∧ (get_current_user (mockAuthProvider []) (some "Bearer invalid_token") =
        .error ⟨401, "Authentication failed: Invalid token"⟩
       ∧ "Authentication failed: Invalid token" ≠ "Invalid or expired token") := by
  refine ⟨?_, ?_, rfl, by decide⟩
  · intro m hm; simp [get_current_user, hm]
  · intro hm; simp [get_current_user, hm]

/-- Witness for C9: the tests' failing input `Bearer invalid_token` with the
mock provider, discharged through the general exception branch. -/
theorem spec_C9_witness :
    get_current_user (mockAuthProvider []) (some "Bearer invalid_token") =
      .error ⟨401, "Authentication failed: Invalid token"⟩ :=
  (spec_C9_auth_detail_leaks (mockAuthProvider []) "Bearer invalid_token").1
    "Invalid token" rfl

/-- An ACTIVE invite from A whose end-of-day expiry has passed by the time of
the call. -/
def invActivePast : Invite :=
  { invite_token := "tokP", inviter_id := "user-A", battle_id := "bP",
    status := .ACTIVE, expires_at := "2024-06-01T23:59:59.999999" }

/-- Store holding only `invActivePast`. -/
def sActivePast : Store := { battles := [], invites := [invActivePast] }

/-- Counterexample to C4 as stated: the inviter accepts their own invite
after the expiry instant and receives `Invite has expired.`, not
`Cannot accept your own invite.` — the expiry check runs before the
self-accept check. -/
theorem spec_C4_counterexample :
    (accept_invite sActivePast "tokP" (some uA) "2024-06-02T08:00:00" false).2 =
      .error ⟨400, "Invite has expired."⟩
    ∧ (⟨400, "Invite has expired."⟩ : HError) ≠
        ⟨400, "Cannot accept your own invite."⟩ := by
  constructor
  · rfl
  · decide

/-- C4 as amended: self-acceptance fails with `SelfAcceptNotAllowed` in every
invite state that survives the expiry check — status not EXPIRED and the
expiry instant not yet passed (so both ACTIVE and not-yet-expired ACCEPTED
invites) — and the store is untouched; when the invite is expired, the
`Expired` error takes precedence instead. -/
theorem spec_C4_self_accept (s : Store) (t : String) (x : User) (now : Time)
    (lz : Bool) (inv : Invite) (rest : List Invite)
    (hf : selectInvites s t = inv :: rest)
    (hne : inv.status ≠ .EXPIRED) (hnt : timeLt inv.expires_at now = false)
    (hself : x.user_id = inv.inviter_id) :
    accept_invite s t (some x) now lz =
      (s, .error ⟨400, "Cannot accept your own invite."⟩) := by
  simp [accept_invite, hf, hne, hnt, hself]

/-- A fresh ACTIVE invite from A, not yet expired at the fixture call times. -/
def invFresh : Invite :=
  { invite_token := "tokS", inviter_id := "user-A", battle_id := "bS",
    status := .ACTIVE, expires_at := "2024-06-01T23:59:59.999999" }

/-- Store holding only `invFresh`. -/
def sFresh : Store := { battles := [], invites := [invFresh] }

/-- Witness for C4 amended: the inviter self-accepts a fresh ACTIVE invite
before expiry. -/
theorem spec_C4_witness :
    accept_invite sFresh "tokS" (some uA) "2024-06-01T09:00:00" false =
      (sFresh, .error ⟨400, "Cannot accept your own invite."⟩) :=
  spec_C4_self_accept sFresh "tokS" uA "2024-06-01T09:00:00" false invFresh []
    rfl (by decide) (by decide) rfl

/-- Counterexample to C7 as stated: when the lazy expiry write raises, the
caller does not receive the `Expired` error at all — the exception escapes
to the generic handler, which returns 500 `Failed to accept Invite`. -/
theorem spec_C7_counterexample :
    (accept_invite sActivePast "tokP" (some uB) "2024-06-02T08:00:00" true).2 =
      .error ⟨500, "Failed to accept Invite"⟩
    ∧ (⟨500, "Failed to accept Invite"⟩ : HError) ≠
        ⟨400, "Invite has expired."⟩ := by
  constructor
  · rfl
  · decide

/-- C7 as amended: on an expired invite (status EXPIRED, or past its
`expires_at` instant) the caller receives `Expired` exactly when the lazy
expiry write completes; when that write raises, the exception propagates to
the generic handler and the caller receives the 500 `Failed to accept
Invite` error instead, with no store change. -/
theorem spec_C7_lazy_write (s : Store) (t : String) (u : Option User)
    (now : Time) (inv : Invite) (rest : List Invite)
    (hf : selectInvites s t = inv :: rest)
    (hexp : inv.status = .EXPIRED ∨ timeLt inv.expires_at now = true) :
    accept_invite s t u now false =
      ({ s with invites := s.invites.map (expireRow t) },
       .error ⟨400, "Invite has expired."⟩)
    ∧ accept_invite s t u now true =
      (s, .error ⟨500, "Failed to accept Invite"⟩) := by
  rcases hexp with h | h <;>
    exact ⟨by simp [accept_invite, hf, h], by simp [accept_invite, hf, h]⟩

/-- Witness for C7 amended: both behaviours at the concrete expired fixture. -/
theorem spec_C7_witness :
    accept_invite sActivePast "tokP" (some uB) "2024-06-02T08:00:00" false =
      ({ battles := [],
         invites := [{ invActivePast with status := .EXPIRED }] },
       .error ⟨400, "Invite has expired."⟩)
    ∧ accept_invite sActivePast "tokP" (some uB) "2024-06-02T08:00:00" true =
      (sActivePast, .error ⟨500, "Failed to accept Invite"⟩) := by
  have h := spec_C7_lazy_write sActivePast "tokP" (some uB)
    "2024-06-02T08:00:00" invActivePast [] rfl (Or.inr (by decide))
  exact ⟨by simpa [sActivePast, invActivePast, expireRow] using h.1, h.2⟩

/-- A list is unchanged by a map that fixes each of its elements. -/
theorem map_id_of_eq {α : Type} (l : List α) (f : α → α)
    (h : ∀ a ∈ l, f a = a) : l.map f = l := by
  induction l with
  | nil => rfl
  | cons x xs ih =>
    rw [List.map_cons, h x (List.mem_cons_self x xs),
        ih (fun a ha => h a (List.mem_cons_of_mem x ha))]

/-- The head of a token lookup is a stored invite carrying that token. -/
theorem head_selectInvites {s : Store} {t : String} {inv : Invite}
    {rest : List Invite} (hf : selectInvites s t = inv :: rest) :
    inv ∈ s.invites ∧ inv.invite_token = t := by
  have h : inv ∈ selectInvites s t := hf ▸ List.mem_cons_self inv rest
  have h2 := List.mem_filter.mp h
  exact ⟨h2.1, of_decide_eq_true h2.2⟩

/-- The lazy expiry write fixes an already-EXPIRED row. -/
theorem expireRow_id (t : String) (i : Invite) (h : i.status = .EXPIRED) :
    expireRow t i = i := by
  cases i
  cases h
  simp [expireRow]

/-- The CAS write fixes every row that is not ACTIVE. -/
theorem casRow_id (t : String) (u : Option User) (now : Time) (i : Invite)
    (h : i.status ≠ .ACTIVE) : casRow t u now i = i := by
  simp [casRow, h]

/-- An ACCEPTED invite from A, past its expiry instant at the fixture call
time, with its invitee recorded. -/
def invAccPast : Invite :=
  { invite_token := "tokQ", inviter_id := "user-A", battle_id := "bQ",
    status := .ACCEPTED, expires_at := "2024-06-01T23:59:59.999999",
    accepted_at := some "2024-06-01T12:00:00", invitee_id := some "user-B" }

/-- Store holding only `invAccPast`. -/
def sAccPast : Store := { battles := [], invites := [invAccPast] }

/-- Counterexample to C3 as stated: an `AcceptInvite` call arriving after the
expiry instant against an already-ACCEPTED invite does change its status —
the lazy expiry write is keyed on the token alone, so the ACCEPTED row is
re-marked EXPIRED. -/
theorem spec_C3_counterexample :
    invAccPast.status = .ACCEPTED
    ∧ (accept_invite sAccPast "tokQ" (some uX) "2024-06-02T08:00:00"
        false).1.invites.map Invite.status = [IStatus.EXPIRED] := by
  constructor
  · rfl
  · rfl

/-- C3 as amended: EXPIRED is terminal — an invite whose every row for the
token is EXPIRED is left exactly as is by any `AcceptInvite` call — and an
ACCEPTED invite is unchanged by any call arriving at or before its expiry
instant (any caller, including the inviter); but after the expiry instant
the lazy expiry write re-marks even an ACCEPTED invite to EXPIRED, since it
is conditioned on the token only. -/
theorem spec_C3_terminality :
    (∀ (s : Store) (t : String) (u : Option User) (now : Time) (lz : Bool),
      (∀ i ∈ s.invites, i.invite_token = t → i.status = .EXPIRED) →
      (accept_invite s t u now lz).1.invites = s.invites)
    ∧ (∀ (s : Store) (t : String) (u : Option User) (now : Time) (lz : Bool)
        (inv : Invite) (rest : List Invite),
      selectInvites s t = inv :: rest →
      (∀ i ∈ s.invites, i.invite_token = t → i.status = .ACCEPTED) →
      timeLt inv.expires_at now = false →
      (accept_invite s t u now lz).1.invites = s.invites) := by
  constructor
  · intro s t u now lz hall
    cases hf : selectInvites s t with
    | nil => simp [accept_invite, hf]
    | cons inv rest =>
      obtain ⟨hm, ht⟩ := head_selectInvites hf
      have hst : inv.status = .EXPIRED := hall inv hm ht
      cases lz with
      | true => simp [accept_invite, hf, hst]
      | false =>
        simp only [accept_invite, hf, hst]
        simp only [true_or, if_true]
        exact map_id_of_eq _ _ (fun i hi => by
          by_cases h : i.invite_token = t
          · exact expireRow_id t i (hall i hi h)
          · simp [expireRow, h])
  · intro s t u now lz inv rest hf hall hnt
    obtain ⟨hm, ht⟩ := head_selectInvites hf
    have hst : inv.status = .ACCEPTED := hall inv hm ht
    have hne : ¬ (inv.status = .EXPIRED) := by simp [hst]
    have hmap : s.invites.map (casRow t u now) = s.invites :=
      map_id_of_eq _ _ (fun i hi => by
        by_cases h : i.invite_token = t
        · exact casRow_id t u now i (by simp [hall i hi h])
        · simp [casRow, h])
    have hmatched : s.invites.filter (fun i =>
        decide (i.invite_token = t) && decide (i.status = .ACTIVE)) = [] := by
      rw [List.filter_eq_nil_iff]
      intro a ha
      by_cases h : a.invite_token = t
      · simp [hall a ha h]
      · simp [h]
    cases u with
    | none => simp [accept_invite, hf, hne, hnt, hmatched, hmap]
    | some x =>
      by_cases hs : x.user_id = inv.inviter_id
      · simp [accept_invite, hf, hne, hnt, hs]
      · simp [accept_invite, hf, hne, hnt, hs, hmatched, hmap]

/-- The EXPIRED re-marking of `invAccPast`. -/
def invExpPast : Invite := { invAccPast with status := .EXPIRED }

/-- Store holding only `invExpPast`. -/
def sExpPast : Store := { battles := [], invites := [invExpPast] }

/-- Witness for C3 amended: an EXPIRED-only store is fixed by a late accept,
and the not-yet-expired ACCEPTED fixture is fixed even by the inviter. -/
theorem spec_C3_witness :
    (accept_invite sExpPast "tokQ" none "2024-06-02T08:00:00" false).1.invites
      = [invExpPast]
    ∧ (accept_invite sAccPast "tokQ" (some uA) "2024-06-01T15:00:00"
        false).1.invites = [invAccPast] :=
  ⟨spec_C3_terminality.1 sExpPast "tokQ" none "2024-06-02T08:00:00" false
      (by intro i hi _; simp [sExpPast] at hi; simp [hi, invExpPast]),
   spec_C3_terminality.2 sAccPast "tokQ" (some uA) "2024-06-01T15:00:00" false
      invAccPast [] rfl
      (by intro i hi _; simp [sAccPast] at hi; simp [hi, invAccPast])
      (by decide)⟩

/-- A list is unchanged by filtering with a predicate it satisfies
throughout. -/
theorem filter_id_of_eq {α : Type} (l : List α) (p : α → Bool)
    (h : ∀ a ∈ l, p a = true) : l.filter p = l := by
  induction l with
  | nil => rfl
  | cons x xs ih =>
    rw [List.filter_cons_of_pos (h x (List.mem_cons_self x xs)),
        ih (fun a ha => h a (List.mem_cons_of_mem x ha))]

/-- Store with no rows. -/
def sEmpty : Store := { battles := [], invites := [] }

/-- Counterexample to C6 as stated: when the invite insert raises (one of its
failure modes), the generic handler returns 500 without running the
compensating delete — the freshly created WAITING battle survives in the
store. -/
theorem spec_C6_counterexample :
    create_invite sEmpty uA "tokC" "2024-06-01T09:00:00"
        "2024-06-01T23:59:59.999999" "nb1" "2024-06-01" .ok .exn =
      ({ battles := [newBattleRow uA "nb1" "2024-06-01T09:00:00" "2024-06-01"],
         invites := [] },
       .error ⟨500, "Failed to create Invite"⟩)
    ∧ (newBattleRow uA "nb1" "2024-06-01T09:00:00" "2024-06-01").status =
        .WAITING := by
  exact ⟨rfl, rfl⟩

/-- C6 as amended: the compensating delete runs exactly when the invite
insert completes with empty data — in that mode the new battle is removed
and the store is restored (given the generated battle id is fresh); but when
the invite insert raises, the exception lands in the generic handler and the
orphan WAITING battle survives. -/
theorem spec_C6_rollback :
    (∀ (s : Store) (u : User) (tok : String) (now exp : Time) (nid pd : String),
      (∀ b ∈ s.battles, b.id ≠ nid) →
      create_invite s u tok now exp nid pd .ok .noData =
        (s, .error ⟨500, "Failed to create invite."⟩))
    ∧ (∀ (s : Store) (u : User) (tok : String) (now exp : Time) (nid pd : String),
      create_invite s u tok now exp nid pd .ok .exn =
        ({ s with battles := s.battles ++ [newBattleRow u nid now pd] },
         .error ⟨500, "Failed to create Invite"⟩)
      ∧ newBattleRow u nid now pd ∈
          (create_invite s u tok now exp nid pd .ok .exn).1.battles
      ∧ (newBattleRow u nid now pd).status = .WAITING) := by
  constructor
  · intro s u tok now exp nid pd hfresh
    obtain ⟨bs, iv⟩ := s
    have hrow : (!(decide ((newBattleRow u nid now pd).id = nid))) = false := by
      simp [newBattleRow]
    have hkeep : bs.filter (fun b => !(decide (b.id = nid))) = bs :=
      filter_id_of_eq _ _ (fun b hb => by simp [hfresh b hb])
    simp [create_invite, List.filter_append, List.filter_cons, hkeep, hrow]
  · intro s u tok now exp nid pd
    exact ⟨rfl, by simp [create_invite], rfl⟩

/-- Witness for C6 amended: the empty-data failure mode at the empty store
rolls the battle back completely. -/
theorem spec_C6_witness :
    create_invite sEmpty uA "tokC" "2024-06-01T09:00:00"
        "2024-06-01T23:59:59.999999" "nb1" "2024-06-01" .ok .noData =
      (sEmpty, .error ⟨500, "Failed to create invite."⟩) :=
  spec_C6_rollback.1 sEmpty uA "tokC" "2024-06-01T09:00:00"
    "2024-06-01T23:59:59.999999" "nb1" "2024-06-01" (by simp [sEmpty])

/-- No stored invite carrying this token is ACTIVE. -/
def noActive (iv : List Invite) (t : String) : Prop :=
  ∀ i ∈ iv, i.invite_token = t → i.status ≠ .ACTIVE

/-- The caller is not the inviter of the invite (a guest never is). -/
def notSelfCaller (inv : Invite) : Option User → Prop
  | some x => x.user_id ≠ inv.inviter_id
  | none => True

/-- After the lazy expiry write, no invite with the token is ACTIVE. -/
theorem noActive_map_expire (iv : List Invite) (t : String) :
    noActive (iv.map (expireRow t)) t := by
  intro j hj htok
  obtain ⟨i, hi, rfl⟩ := List.mem_map.mp hj
  by_cases h : i.invite_token = t
  · simp [expireRow, h]
  · have he : expireRow t i = i := by simp [expireRow, h]
    rw [he] at htok
    exact absurd htok h

/-- After the CAS write, no invite with the token is ACTIVE: every ACTIVE
row with the token was flipped to ACCEPTED, and the rest were not ACTIVE. -/
theorem noActive_map_cas (iv : List Invite) (t : String) (u : Option User)
    (now : Time) : noActive (iv.map (casRow t u now)) t := by
  intro j hj htok
  obtain ⟨i, hi, rfl⟩ := List.mem_map.mp hj
  by_cases h : i.invite_token = t ∧ i.status = .ACTIVE
  · simp [casRow, h]
  · have he : casRow t u now i = i := by simp [casRow, h]
    rw [he] at htok ⊢
    exact fun hact => h ⟨htok, hact⟩

/-- Behaviour of `accept_invite` once control reaches the CAS (invite found,
not expired, caller not the inviter): the invites table always becomes the
CAS image, and when no row with the token is ACTIVE the call returns the 409
AlreadyAccepted error with the battles table untouched. -/
theorem accept_invite_cas_aux (s : Store) (t : String) (u : Option User)
    (now : Time) (lz : Bool) (inv : Invite) (rest : List Invite)
    (hf : selectInvites s t = inv :: rest)
    (hexp : ¬ (inv.status = .EXPIRED ∨ timeLt inv.expires_at now = true))
    (hns : notSelfCaller inv u) :
    (accept_invite s t u now lz).1.invites = s.invites.map (casRow t u now)
    ∧ (noActive s.invites t →
        (accept_invite s t u now lz).2 =
          .error ⟨409, "Invite has already been accepted by another user."⟩
        ∧ (accept_invite s t u now lz).1.battles = s.battles) := by
  constructor
  · cases u with
    | some x =>
      have hx : x.user_id ≠ inv.inviter_id := hns
      cases hm : (s.invites.filter (fun i =>
          decide (i.invite_token = t) && decide (i.status = .ACTIVE))).isEmpty <;>
        simp [accept_invite, hf, hexp, hx, hm]
    | none =>
      cases hm : (s.invites.filter (fun i =>
          decide (i.invite_token = t) && decide (i.status = .ACTIVE))).isEmpty <;>
        simp [accept_invite, hf, hexp, hm]
  · intro h
    have hnil : s.invites.filter (fun i =>
        decide (i.invite_token = t) && decide (i.status = .ACTIVE)) = [] := by
      rw [List.filter_eq_nil_iff]
      intro a ha
      by_cases htok : a.invite_token = t
      · simp [htok, h a ha htok]
      · simp [htok]
    cases u with
    | some x =>
      have hx : x.user_id ≠ inv.inviter_id := hns
      constructor <;> simp [accept_invite, hf, hexp, hx, hnil]
    | none =>
      constructor <;> simp [accept_invite, hf, hexp, hnil]

/-- One `accept_invite` call can succeed only by finding an ACTIVE row for
the token, and it always leaves the store with no ACTIVE row for the token
it touched — the two facts that make acceptance exactly-once. -/
theorem accept_invite_once_aux (s : Store) (t : String) (u : Option User)
    (now : Time) (lz : Bool) :
    (noActive s.invites t →
      noActive (accept_invite s t u now lz).1.invites t
      ∧ isOkResp (accept_invite s t u now lz).2 = false)
    ∧ (isOkResp (accept_invite s t u now lz).2 = true →
      noActive (accept_invite s t u now lz).1.invites t) := by
  cases hf : selectInvites s t with
  | nil =>
    have h1 : (accept_invite s t u now lz).1 = s := by simp [accept_invite, hf]
    have h2 : (accept_invite s t u now lz).2 =
        .error ⟨404, "Could not find invite."⟩ := by simp [accept_invite, hf]
    rw [h1, h2]
    exact ⟨fun h => ⟨h, rfl⟩, fun hok => absurd hok (by simp [isOkResp])⟩
  | cons inv rest =>
    by_cases hexp : inv.status = .EXPIRED ∨ timeLt inv.expires_at now = true
    · cases lz with
      | true =>
        have h1 : (accept_invite s t u now true).1 = s := by
          simp [accept_invite, hf, hexp]
        have h2 : (accept_invite s t u now true).2 =
            .error ⟨500, "Failed to accept Invite"⟩ := by
          simp [accept_invite, hf, hexp]
        rw [h1, h2]
        exact ⟨fun h => ⟨h, rfl⟩, fun hok => absurd hok (by simp [isOkResp])⟩
      | false =>
        have h1 : (accept_invite s t u now false).1.invites =
            s.invites.map (expireRow t) := by
          simp [accept_invite, hf, hexp]
        have h2 : (accept_invite s t u now false).2 =
            .error ⟨400, "Invite has expired."⟩ := by
          simp [accept_invite, hf, hexp]
        rw [h1, h2]
        exact ⟨fun _ => ⟨noActive_map_expire s.invites t, rfl⟩,
               fun hok => absurd hok (by simp [isOkResp])⟩
    · cases u with
      | some x =>
        by_cases hs : x.user_id = inv.inviter_id
        · have h1 : (accept_invite s t (some x) now lz).1 = s := by
            simp [accept_invite, hf, hexp, hs]
          have h2 : (accept_invite s t (some x) now lz).2 =
              .error ⟨400, "Cannot accept your own invite."⟩ := by
            simp [accept_invite, hf, hexp, hs]
          rw [h1, h2]
          exact ⟨fun h => ⟨h, rfl⟩, fun hok => absurd hok (by simp [isOkResp])⟩
        · obtain ⟨hinv, h409⟩ :=
            accept_invite_cas_aux s t (some x) now lz inv rest hf hexp hs
          refine ⟨fun h => ⟨?_, ?_⟩, fun _ => ?_⟩
          · rw [hinv]; exact noActive_map_cas s.invites t (some x) now
          · rw [(h409 h).1]; rfl
          · rw [hinv]; exact noActive_map_cas s.invites t (some x) now
      | none =>
        obtain ⟨hinv, h409⟩ :=
          accept_invite_cas_aux s t none now lz inv rest hf hexp trivial
        refine ⟨fun h => ⟨?_, ?_⟩, fun _ => ?_⟩
        · rw [hinv]; exact noActive_map_cas s.invites t none now
        · rw [(h409 h).1]; rfl
        · rw [hinv]; exact noActive_map_cas s.invites t none now

/-- Over any sequence of `AcceptInvite` calls on one token, at most one call
succeeds; and none succeeds once no ACTIVE row for the token exists. -/
theorem runAccepts_at_most_one (s : Store) (t : String)
    (cs : List AcceptCall) :
    countOk (runAccepts s t cs).2 ≤ 1
    ∧ (noActive s.invites t → countOk (runAccepts s t cs).2 = 0) := by
  induction cs generalizing s with
  | nil => simp [runAccepts, countOk]
  | cons c cs ih =>
    have haux := accept_invite_once_aux s t c.user c.now c.lazyRaise
    have hrun : (runAccepts s t (c :: cs)).2 =
        (accept_invite s t c.user c.now c.lazyRaise).2 ::
          (runAccepts (accept_invite s t c.user c.now c.lazyRaise).1 t cs).2 := by
      simp [runAccepts]
    rw [hrun]
    have hih := ih (accept_invite s t c.user c.now c.lazyRaise).1
    cases hok : isOkResp (accept_invite s t c.user c.now c.lazyRaise).2 with
    | true =>
      have h0 := hih.2 (haux.2 hok)
      constructor
      · simp only [countOk, List.countP_cons, hok, if_true]
        simp only [countOk] at h0
        simp [h0]
      · intro h
        have hfalse := (haux.1 h).2
        rw [hfalse] at hok
        simp at hok
    | false =>
      constructor
      · simp only [countOk, List.countP_cons, hok, if_false]
        simpa [countOk] using hih.1
      · intro h
        have h0 := hih.2 (haux.1 h).1
        simp only [countOk, List.countP_cons, hok, if_false]
        simpa [countOk] using h0

/-- An ACCEPTED invite from A, far from expiry, with its invitee recorded. -/
def invAcc : Invite :=
  { invite_token := "tokR", inviter_id := "user-A", battle_id := "bR",
    status := .ACCEPTED, expires_at := "2099-01-01T00:00:00",
    accepted_at := some "2024-06-01T10:00:00", invitee_id := some "user-B" }

/-- Store holding only `invAcc`. -/
def sAcc : Store := { battles := [], invites := [invAcc] }

/-- Counterexample to C2 as stated: a later attempt against a no-longer-ACTIVE
(ACCEPTED) invite by a Registered caller who is the inviter fails with the
400 SelfAcceptNotAllowed error, not with 409 AlreadyAccepted — the claim's
"every later attempt fails with AlreadyAccepted" does not cover inviter
callers (nor post-expiry callers, who receive Expired). -/
theorem spec_C2_counterexample :
    invAcc.status = .ACCEPTED
    ∧ (accept_invite sAcc "tokR" (some uA) "2024-06-01T11:00:00" false).2 =
        .error ⟨400, "Cannot accept your own invite."⟩
    ∧ (⟨400, "Cannot accept your own invite."⟩ : HError) ≠
        ⟨409, "Invite has already been accepted by another user."⟩ := by
  refine ⟨rfl, rfl, by decide⟩

/-- C2 as amended: (1) across any sequence of `AcceptInvite` calls on one
token — any mix of guest and registered callers, any times, any lazy-write
faults — at most one call succeeds; (2) once every stored row for the token
is ACCEPTED, any further attempt by a non-inviter caller at or before the
expiry instant fails with exactly 409 AlreadyAccepted and does not touch the
battles table; (3) the successful acceptance is the call that finds the
invite ACTIVE: it flips the invite to ACCEPTED via the CAS image, sets the
bound battle READY recording the second party (id or guest flag), and
returns the battle id. -/
theorem spec_C2_exactly_once :
    (∀ (s : Store) (t : String) (cs : List AcceptCall),
      countOk (runAccepts s t cs).2 ≤ 1)
    ∧ (∀ (s : Store) (t : String) (u : Option User) (now : Time) (lz : Bool)
        (inv : Invite) (rest : List Invite),
      selectInvites s t = inv :: rest →
      (∀ i ∈ s.invites, i.invite_token = t → i.status = .ACCEPTED) →
      timeLt inv.expires_at now = false →
      notSelfCaller inv u →
      (accept_invite s t u now lz).2 =
        .error ⟨409, "Invite has already been accepted by another user."⟩
      ∧ (accept_invite s t u now lz).1.battles = s.battles)
    ∧ (∀ (s : Store) (t : String) (u : Option User) (now : Time) (lz : Bool)
        (inv : Invite) (rest : List Invite) (b : Battle) (lb : List Battle),
      selectInvites s t = inv :: rest →
      inv.status = .ACTIVE →
      timeLt inv.expires_at now = false →
      notSelfCaller inv u →
      selectBattles s inv.battle_id = b :: lb →
      accept_invite s t u now lz =
        ({ battles := s.battles.map (joinRow inv.battle_id u),
           invites := s.invites.map (casRow t u now) },
         .ok ⟨inv.battle_id, u.isNone⟩)) := by
  refine ⟨fun s t cs => (runAccepts_at_most_one s t cs).1, ?_, ?_⟩
  · intro s t u now lz inv rest hf hall hnt hns
    obtain ⟨hm, ht⟩ := head_selectInvites hf
    have hexp : ¬ (inv.status = .EXPIRED ∨ timeLt inv.expires_at now = true) := by
      simp [hall inv hm ht, hnt]
    have hna : noActive s.invites t := fun i hi htok => by simp [hall i hi htok]
    exact (accept_invite_cas_aux s t u now lz inv rest hf hexp hns).2 hna
  · intro s t u now lz inv rest b lb hf hact hnt hns hb
    obtain ⟨hm, ht⟩ := head_selectInvites hf
    have hexp : ¬ (inv.status = .EXPIRED ∨ timeLt inv.expires_at now = true) := by
      simp [hact, hnt]
    have hin : inv ∈ s.invites.filter (fun i =>
        decide (i.invite_token = t) && decide (i.status = .ACTIVE)) :=
      List.mem_filter.mpr ⟨hm, by simp [ht, hact]⟩
    have hne : (s.invites.filter (fun i =>
        decide (i.invite_token = t) && decide (i.status = .ACTIVE))).isEmpty
          = false := by
      cases hmm : s.invites.filter (fun i =>
          decide (i.invite_token = t) && decide (i.status = .ACTIVE)) with
      | nil => rw [hmm] at hin; cases hin
      | cons a l => rfl
    simp only [selectBattles] at hb
    cases u with
    | some x =>
      have hx : x.user_id ≠ inv.inviter_id := hns
      simp [accept_invite, selectBattles, hf, hexp, hx, hne, hb]
    | none =>
      simp [accept_invite, selectBattles, hf, hexp, hne, hb]

/-- A WAITING battle created by A, awaiting its second party. -/
def bWaiting : Battle :=
  { id := "bW", player1_id := "user-A", status := .WAITING }

/-- The ACTIVE invite bound to `bWaiting`. -/
def invForW : Invite :=
  { invite_token := "tokW", inviter_id := "user-A", battle_id := "bW",
    status := .ACTIVE, expires_at := "2024-06-01T23:59:59.999999" }

/-- Store pairing `bWaiting` with `invForW`. -/
def sWaiting : Store := { battles := [bWaiting], invites := [invForW] }

/-- The READY image of `bWaiting` after a guest joins. -/
def bWaitingJoined : Battle :=
  { bWaiting with
    status := .READY, player2_id := none, player2_is_guest := true }

/-- The ACCEPTED image of `invForW` after the fixture acceptance. -/
def invForWAccepted : Invite :=
  { invForW with
    status := .ACCEPTED, accepted_at := some "2024-06-01T10:00:00" }

/-- Witness for C2 amended: a guest accepts the fixture invite — the invite
becomes ACCEPTED, the battle becomes READY with `player2_is_guest`, and the
call returns the battle id; and at-most-once evaluated on a two-call
sequence (guest then registered B) yields exactly one success. -/
theorem spec_C2_witness :
    accept_invite sWaiting "tokW" none "2024-06-01T10:00:00" false =
      ({ battles := [bWaitingJoined], invites := [invForWAccepted] },
       .ok ⟨"bW", true⟩)
    ∧ countOk (runAccepts sWaiting "tokW"
        [{ user := none, now := "2024-06-01T10:00:00" },
         { user := some uB, now := "2024-06-01T10:00:05" }]).2 ≤ 1 := by
  constructor
  · have h := spec_C2_exactly_once.2.2 sWaiting "tokW" none
      "2024-06-01T10:00:00" false invForW [] bWaiting [] rfl rfl (by decide)
      trivial rfl
    simpa [sWaiting, bWaiting, invForW, bWaitingJoined, invForWAccepted,
      joinRow, casRow] using h
  · exact spec_C2_exactly_once.1 sWaiting "tokW"
      [{ user := none, now := "2024-06-01T10:00:00" },
       { user := some uB, now := "2024-06-01T10:00:05" }]

/-- The 403 error a non-participant receives from `start` / `end`, by caller
kind. -/
def authError : Option User → HError
  | some _ => ⟨403, "You are not part of this battle."⟩
  | none => ⟨403, "Guest access denied for this battle."⟩

/-- The 403 error a non-participant receives from `mark_ready`, by caller
kind. -/
def readyAuthError : Option User → HError
  | some _ => ⟨403, "User not part of this battle."⟩
  | none => ⟨403, "Player 2 is not a guest and guest cannot join this battle."⟩

/-- Counterexample to C5 as stated: `mark_ready` checks the battle status
before the caller, so a non-participant calling `MarkReady` on an
IN_PROGRESS battle receives the 400 InvalidState error, not 403 Forbidden. -/
theorem spec_C5_counterexample :
    mark_ready sInProg "b1" (some uX) =
      (sInProg, .error ⟨400, "Battle not in a joinable state."⟩)
    ∧ (400 : Nat) ≠ 403
    ∧ nonParticipant bInProg (some uX) := by
  refine ⟨rfl, by decide, ?_⟩
  simp [nonParticipant, bInProg, uX]

/-- C5 as amended: a non-participant (registered stranger, or guest on a
non-guest battle) always receives 403 from `Start` and `Complete`, whatever
the battle status, with the store unchanged; from `MarkReady` they receive
403 only while the battle status is WAITING or READY — on IN_PROGRESS or
COMPLETED battles `mark_ready` returns the 400 not-joinable error (to
participants and strangers alike) before ever checking the caller, again
with the store unchanged. -/
theorem spec_C5_forbidden :
    (∀ (s : Store) (battle_id : String) (u : Option User) (now : Time)
        (b : Battle) (l : List Battle),
      selectBattles s battle_id = b :: l → nonParticipant b u →
      start s battle_id u now = (s, .error (authError u)))
    ∧ (∀ (s : Store) (battle_id : String) (u : Option User) (now : Time)
        (b : Battle) (l : List Battle),
      selectBattles s battle_id = b :: l → nonParticipant b u →
      endBattle s battle_id u now = (s, .error (authError u)))
    ∧ (∀ (s : Store) (battle_id : String) (u : Option User)
        (b : Battle) (l : List Battle),
      selectBattles s battle_id = b :: l →
      (b.status = .READY ∨ b.status = .WAITING) → nonParticipant b u →
      mark_ready s battle_id u = (s, .error (readyAuthError u)))
    ∧ (∀ (s : Store) (battle_id : String) (u : Option User)
        (b : Battle) (l : List Battle),
      selectBattles s battle_id = b :: l →
      ¬ (b.status = .READY ∨ b.status = .WAITING) →
      mark_ready s battle_id u =
        (s, .error ⟨400, "Battle not in a joinable state."⟩)) := by
  refine ⟨?_, ?_, ?_, ?_⟩
  · intro s battle_id u now b l hf hnp
    cases u with
    | some x =>
      obtain ⟨h1, h2⟩ := hnp
      simp [start, hf, h1, h2, authError]
    | none =>
      simp [nonParticipant] at hnp
      simp [start, hf, hnp, authError]
  · intro s battle_id u now b l hf hnp
    cases u with
    | some x =>
      obtain ⟨h1, h2⟩ := hnp
      simp [endBattle, hf, h1, h2, authError]
    | none =>
      simp [nonParticipant] at hnp
      simp [endBattle, hf, hnp, authError]
  · intro s battle_id u b l hf hj hnp
    cases u with
    | some x =>
      obtain ⟨h1, h2⟩ := hnp
      simp [mark_ready, hf, hj, Ne.symm h1, h2, readyAuthError]
    | none =>
      simp [nonParticipant] at hnp
      simp [mark_ready, hf, hj, hnp, readyAuthError]
  · intro s battle_id u b l hf hnj
    simp [mark_ready, hf, hnj]

/-- Witness for C5 amended: the registered stranger X is turned away with 403
by `start` and `end` on the in-progress fixture, and with 403 by
`mark_ready` on a READY battle. -/
theorem spec_C5_witness :
    start sInProg "b1" (some uX) "2024-06-01T10:08:00" =
      (sInProg, .error ⟨403, "You are not part of this battle."⟩)
    ∧ endBattle sInProg "b1" none "2024-06-01T10:08:00" =
      (sInProg, .error ⟨403, "Guest access denied for this battle."⟩)
    ∧ mark_ready sCompleted "b2" (some uX) =
      (sCompleted, .error ⟨400, "Battle not in a joinable state."⟩) :=
  ⟨spec_C5_forbidden.1 sInProg "b1" (some uX) "2024-06-01T10:08:00" bInProg []
      rfl (by simp [nonParticipant, bInProg, uX]),
   spec_C5_forbidden.2.1 sInProg "b1" none "2024-06-01T10:08:00" bInProg []
      rfl rfl,
   spec_C5_forbidden.2.2.2 sCompleted "b2" (some uX) bCompleted [] rfl
      (by simp [bCompleted])⟩
